import Mathlib

/-!
Verification development for `network/f5/bigip_ssl_client_profile.py`.

The module manages an F5 BIG-IP SSL client profile through the bigsuds SOAP
client.  Its helper functions (`profile_list`, `profile_exists`,
`create_profile`, `remove_profile`, `get_lb_method`, `set_lb_method`,
`get_monitors`, `set_monitors`, `get_slow_ramp_time`, `set_slow_ramp_time`,
`delete_node_address`) are embedded below as pure functions over an explicit
remote-state record `ApiState`; every remote call a function issues is
recorded in a returned `List ApiCall` trace.  Fallible code returns
`Except PyError` values.

`main` (lines 302-423 of the source) is embedded as `mainRun`.  Note that
`main` contains several references to names that are never defined in the
module (`certificate` read at line 323 while only the misspelled
`certificiate` is assigned at line 322, `parition` at line 349,
`pool_exists`/`pool`/`lb_method`/... in the present path): in CPython these
raise UnboundLocalError/NameError, which the embedding represents as
`PyError` results at exactly the lines where CPython raises them.
-/

set_option linter.unusedVariables false

/-! ### Python string primitives

The source manipulates Python `str` values with `.strip()`, `.lower()`,
`.upper()`, `.replace(old, '')`, `.split(sep)[-1]`, `in` (substring test) and
`%`-style concatenation.  These are modelled character-wise below.  Python's
`lower`/`upper` are full Unicode case maps; the model covers the ASCII
letters, which is exact for every string the module builds or compares
(vendor enum tags and user-supplied attribute names). -/

/-- Python `str.lower` on one character: maps `A`-`Z` to `a`-`z`, leaves
every other character unchanged. -/
def pyCharLower (c : Char) : Char :=
  if c.isUpper then Char.ofNat (c.toNat + 32) else c

/-- Python `str.upper` on one character: maps `a`-`z` to `A`-`Z`, leaves
every other character unchanged. -/
def pyCharUpper (c : Char) : Char :=
  if c.isLower then Char.ofNat (c.toNat - 32) else c

/-- Python `s.lower()`. -/
def pyLower (s : String) : String := ⟨s.data.map pyCharLower⟩

/-- Python `s.upper()`. -/
def pyUpper (s : String) : String := ⟨s.data.map pyCharUpper⟩

/-- Python `s.strip()`: remove leading and trailing whitespace. -/
def pyStrip (s : String) : String :=
  ⟨((s.data.dropWhile Char.isWhitespace).reverse.dropWhile Char.isWhitespace).reverse⟩

/-- Worker for `pyReplaceRemove`: scans left to right; on a match of `pat`
(entered with `skip = 0`) it emits nothing and skips the matched characters,
exactly like Python `str.replace` with an empty replacement string.  `skip`
counts characters of a match still to be consumed. -/
def removeAllGo (pat : List Char) (skip : Nat) : List Char → List Char
  | [] => []
  | c :: cs =>
    match skip with
    | k + 1 => removeAllGo pat k cs
    | 0 =>
      if pat.isPrefixOf (c :: cs) then removeAllGo pat (pat.length - 1) cs
      else c :: removeAllGo pat 0 cs

/-- Python `s.replace(pat, '')` for a nonempty `pat`: delete every
non-overlapping occurrence of `pat`, scanning left to right.  (The module
only ever calls `replace` with the nonempty pattern `"LB_METHOD_"` and the
empty replacement string.) -/
def pyReplaceRemove (s pat : String) : String := ⟨removeAllGo pat.data 0 s.data⟩

/-- Returns the suffix following the last position where `sep` matches, or
`none` when `sep` occurs nowhere. -/
def afterLastGo (sep : List Char) : List Char → Option (List Char)
  | [] => none
  | c :: cs =>
    match afterLastGo sep cs with
    | some r => some r
    | none =>
      if sep.isPrefixOf (c :: cs) then some ((c :: cs).drop sep.length) else none

/-- Python `s.split(sep)[-1]` for a nonempty, non-self-overlapping `sep`
(the module uses the separators `"MONITOR_RULE_TYPE_"` and
`"SERVICE_DOWN_ACTION_"`, which cannot overlap themselves): the suffix of
`s` after the last occurrence of `sep`, or `s` itself when `sep` is absent. -/
def pySplitLast (s sep : String) : String :=
  match afterLastGo sep.data s.data with
  | some r => ⟨r⟩
  | none => s

/-- Worker for `pyContains`. -/
def containsSub (sub : List Char) : List Char → Bool
  | [] => sub.isEmpty
  | c :: cs => sub.isPrefixOf (c :: cs) || containsSub sub cs

/-- Python `sub in s` on strings: substring occurrence test. -/
def pyContains (s sub : String) : Bool := containsSub sub.data s.data

/-- Python `set(l)` for a list of strings, as used by line 403 of the
source: membership-based collection, order and multiplicity forgotten. -/
def pySet (l : List String) : Finset String := l.toFinset

/-! ### Data model -/

/-- The `monitor_rule` record returned by
`LocalLB.Pool.get_monitor_association` (see lines 236-247). -/
structure MonitorRule where
  ruleType : String
  quorum : Int
  monitor_templates : List String
deriving DecidableEq

/-- Snapshot of the remote device state read or written by the module's
helper functions: the SSL client profile listing and the attributes of the
(single) pool the pool-management code manipulates. -/
structure ApiState where
  profiles : List String
  poolLbMethod : String
  poolMonitorRule : MonitorRule
  poolSlowRampTime : Int
  poolServiceDownAction : String
deriving DecidableEq

/-- One remote call, as issued through the bigsuds `api` object. -/
inductive ApiCall where
  | getProfileList
  | setActiveFolder (folder : String)
  | createV2 (profileName certificateValue keyValue : String)
  | setChainFileV2 (profileName chainValue : String)
  | setDefaultProfile (profileName parent : String)
  | deleteProfile (fqProfileName : String)
  | getLbMethod (pool : String)
  | setLbMethod (pool method : String)
  | getMonitorAssociation (pool : String)
  | setMonitorAssociation (pool ruleType : String) (quorum : Int) (templates : List String)
  | getSlowRampTime (pool : String)
  | setSlowRampTime (pool : String) (seconds : Int)
  | deleteNodeAddress (address : String)
deriving DecidableEq

/-- A Python exception surfacing from the embedded code: an
UnboundLocalError / NameError for an undefined name, or a
`bigsuds.OperationFailed` carrying the remote fault message. -/
inductive PyError where
  | unboundLocal (varName : String)
  | nameError (varName : String)
  | operationFailed (msg : String)
deriving DecidableEq

/-- The module's result dictionary `{'changed': bool}`. -/
structure MainResult where
  changed : Bool
deriving DecidableEq

/-- Outcome of one fallible remote operation, supplied by the environment:
either the device accepted it, or it raised `bigsuds.OperationFailed` with
the given message. -/
inductive RemoteOutcome where
  | success
  | operationFailed (msg : String)
deriving DecidableEq

/-- The module parameters after `AnsibleModule` validation
(lines 303-318): the framework-level arguments plus this module's
`name` / `certificate` / `key` / `chain` / `parent_profile`. -/
structure ModuleParams where
  server : String
  user : String
  password : String
  validate_certs : Bool
  state : String
  partition : String
  name : String
  certificate : Option String
  key : Option String
  chain : Option String
  parent_profile : Option String
deriving DecidableEq

/-- Modelled from the spec: `fq_name` is defined in the surrounding
framework (`ansible.module_utils.f5`), not in `src/`; the spec describes
the fully-qualified name it builds as `"/" + partition + "/" + name`. -/
def fq_name (partition name : String) : String := "/" ++ partition ++ "/" ++ name

/-- The Python expression `"/{}/{}".format(partition, name)` used at
lines 196 and 223. -/
def fqFormat (partition name : String) : String := "/" ++ partition ++ "/" ++ name

/-! ### Helper functions of the module (lines 188-300) -/

/-- Lines 188-192: list all SSL client profiles. -/
def profile_list (api : ApiState) : List String × List ApiCall :=
  (api.profiles, [ApiCall.getProfileList])

/-- Lines 195-197: the profile exists iff its fully-qualified name occurs
in the listing. -/
def profile_exists (api : ApiState) (name partition : String) : Bool × List ApiCall :=
  let ssl_name := fqFormat partition name
  let (lst, calls) := profile_list api
  (decide (ssl_name ∈ lst), calls)

/-- Lines 200-219: create the profile.  `create_v2` carries the `.crt` and
`.key` paths; a chain file is set in a second call only when `chain` is not
None, and a parent profile in a third call only when `parent_profile` is
not None.  (Line 206 also computes `common_chain_name`, which the function
never uses, and line 205 computes `chain_name` even when `chain` is None;
both are dead values.) -/
def create_profile (name partition : String) (certificate key : String)
    (chain parent_profile : Option String) : List ApiCall :=
  let certificate_name := "/" ++ partition ++ "/" ++ certificate ++ ".crt"
  let key_name := "/" ++ partition ++ "/" ++ key ++ ".key"
  [ApiCall.setActiveFolder ("/" ++ partition),
   ApiCall.createV2 name certificate_name key_name]
  ++ (match chain with
      | some c => [ApiCall.setChainFileV2 name ("/" ++ partition ++ "/" ++ c ++ ".crt")]
      | none => [])
  ++ (match parent_profile with
      | some p => [ApiCall.setDefaultProfile name p]
      | none => [])

/-- Lines 222-224: delete the profile by its fully-qualified name. -/
def remove_profile (name partition : String) : List ApiCall :=
  [ApiCall.deleteProfile (fqFormat partition name)]

/-- Lines 227-230: fetch the pool's lb method and normalize it with
`.strip().replace('LB_METHOD_', '').lower()`. -/
def get_lb_method (api : ApiState) (pool : String) : String × List ApiCall :=
  let lb_method := api.poolLbMethod
  let lb_method := pyLower (pyReplaceRemove (pyStrip lb_method) "LB_METHOD_")
  (lb_method, [ApiCall.getLbMethod pool])

/-- Lines 232-234: send `"LB_METHOD_" + lb_method.strip().upper()`; the
device stores the transmitted enum string verbatim. -/
def set_lb_method (api : ApiState) (pool lb_method : String) : ApiState × List ApiCall :=
  let lb_method := "LB_METHOD_" ++ pyUpper (pyStrip lb_method)
  ({ api with poolLbMethod := lb_method }, [ApiCall.setLbMethod pool lb_method])

/-- Lines 236-241: fetch the monitor association; the rule type is
normalized with `.split("MONITOR_RULE_TYPE_")[-1].lower()`. -/
def get_monitors (api : ApiState) (pool : String) :
    (String × Int × List String) × List ApiCall :=
  let result := api.poolMonitorRule
  let monitor_type := pyLower (pySplitLast result.ruleType "MONITOR_RULE_TYPE_")
  ((monitor_type, result.quorum, result.monitor_templates),
   [ApiCall.getMonitorAssociation pool])

/-- Lines 243-247: send the monitor association with the vendor-prefixed
rule type `"MONITOR_RULE_TYPE_" + monitor_type.strip().upper()`. -/
def set_monitors (api : ApiState) (pool monitor_type : String) (quorum : Int)
    (monitor_templates : List String) : ApiState × List ApiCall :=
  let monitor_type := "MONITOR_RULE_TYPE_" ++ pyUpper (pyStrip monitor_type)
  ({ api with poolMonitorRule := ⟨monitor_type, quorum, monitor_templates⟩ },
   [ApiCall.setMonitorAssociation pool monitor_type quorum monitor_templates])

/-- Lines 249-251: fetch the pool's slow ramp time. -/
def get_slow_ramp_time (api : ApiState) (pool : String) : Int × List ApiCall :=
  (api.poolSlowRampTime, [ApiCall.getSlowRampTime pool])

/-- Lines 253-254: set the pool's slow ramp time. -/
def set_slow_ramp_time (api : ApiState) (pool : String) (seconds : Int) :
    ApiState × List ApiCall :=
  ({ api with poolSlowRampTime := seconds }, [ApiCall.setSlowRampTime pool seconds])

/-- Lines 281-292: try to delete a node address.  Success returns `True`;
an `OperationFailed` whose message contains
`"is referenced by a member of pool"` is absorbed and returns `False`;
every other `OperationFailed` is re-raised unchanged. -/
def delete_node_address (address : String) (outcome : RemoteOutcome) :
    Except PyError Bool × List ApiCall :=
  match outcome with
  | .success => (Except.ok true, [ApiCall.deleteNodeAddress address])
  | .operationFailed msg =>
    if pyContains msg "is referenced by a member of pool" then
      (Except.ok false, [ApiCall.deleteNodeAddress address])
    else
      (Except.error (PyError.operationFailed msg), [ApiCall.deleteNodeAddress address])

/-! ### The reconciliation blocks of `main` (lines 302-423) -/

/-- Lines 342-359, the `state == 'absent'` branch, as a function of its free
variables (`api`, `name`, `partition`, `module.check_mode`).  When the
profile exists and check mode is off, line 349 executes
`remove_profile(api, name, parition)`; evaluating the argument `parition`
raises NameError (the local is spelled `partition`), before `remove_profile`
is called, so no delete call is ever issued.  NameError is not a
`bigsuds.OperationFailed`, so the handler at lines 351-356 (which would
absorb a remote "was not found" fault) never catches anything and is dead
code. -/
def absentStep (api : ApiState) (name partition : String) (check_mode : Bool) :
    Except PyError MainResult × List ApiCall :=
  let result : MainResult := ⟨false⟩
  let (profileExists, calls) := profile_exists api name partition
  if profileExists then
    if !check_mode then
      (Except.error (PyError.nameError "parition"), calls)
    else
      (Except.ok ⟨true⟩, calls)
  else
    (Except.ok result, calls)

/-- Lines 361-418, the `state == 'present'` branch.  After `update = False`
(line 362), line 363 evaluates `pool_exists(api, pool)`; neither
`pool_exists` nor `pool` is defined anywhere in the module (the branch is a
leftover of the `bigip_pool` module and never mentions the SSL profile
functions), so CPython raises NameError for `pool_exists` before any remote
call, and the entire present path — including the `create_pool` call at
line 372 and the attribute updates of lines 396-418 — is dead. -/
def presentStep : Except PyError MainResult × List ApiCall :=
  (Except.error (PyError.nameError "pool_exists"), [])

/-- Line 397's guard and lines 397-400, as a function of its free variables:
`if lb_method and lb_method != get_lb_method(api, pool)` — a falsy
`lb_method` (None or the empty string) short-circuits without issuing the
get call; otherwise the desired string is compared, unmodified, against the
normalized actual value, and on a difference the setter runs unless in
check mode, with `changed` forced to true. -/
def lbMethodStep (lb_method : Option String) (api : ApiState) (pool : String)
    (check_mode : Bool) (result : MainResult) : MainResult × List ApiCall :=
  match lb_method with
  | none => (result, [])
  | some m =>
    if m = "" then (result, [])
    else
      let (actual, getCalls) := get_lb_method api pool
      if m ≠ actual then
        if check_mode then (⟨true⟩, getCalls)
        else (⟨true⟩, getCalls ++ (set_lb_method api pool m).2)
      else (result, getCalls)

/-- Line 403's condition:
`(t_monitor_type != monitor_type) or (t_quorum != quorum) or
 (set(t_monitor_templates) != set(monitors))`. -/
def monitorsDiffer (t_monitor_type monitor_type : String) (t_quorum quorum : Int)
    (t_monitor_templates monitors : List String) : Bool :=
  decide (t_monitor_type ≠ monitor_type) || decide (t_quorum ≠ quorum)
    || decide (pySet t_monitor_templates ≠ pySet monitors)

/-- Lines 401-406, as a function of its free variables: a falsy (empty)
`monitors` list short-circuits; otherwise the actual association is fetched
and compared via `monitorsDiffer`, and on a difference `set_monitors` runs
unless in check mode, with `changed` forced to true. -/
def monitorStep (monitors : List String) (monitor_type : String) (quorum : Int)
    (api : ApiState) (pool : String) (check_mode : Bool) (result : MainResult) :
    MainResult × List ApiCall :=
  if monitors ≠ [] then
    let ((t_monitor_type, t_quorum, t_monitor_templates), getCalls) := get_monitors api pool
    if monitorsDiffer t_monitor_type monitor_type t_quorum quorum t_monitor_templates monitors then
      if check_mode then (⟨true⟩, getCalls)
      else (⟨true⟩, getCalls ++ (set_monitors api pool monitor_type quorum monitors).2)
    else (result, getCalls)
  else (result, [])

/-- Lines 407-410, as a function of its free variables:
`if slow_ramp_time and slow_ramp_time != get_slow_ramp_time(api, pool)` —
Python's truthiness makes both None and the integer 0 skip the whole
check, including the get call, so a desired value of 0 can never be
applied nor report a change. -/
def slowRampStep (slow_ramp_time : Option Int) (api : ApiState) (pool : String)
    (check_mode : Bool) (result : MainResult) : MainResult × List ApiCall :=
  match slow_ramp_time with
  | none => (result, [])
  | some n =>
    if n = 0 then (result, [])
    else
      let (actual, getCalls) := get_slow_ramp_time api pool
      if n ≠ actual then
        if check_mode then (⟨true⟩, getCalls)
        else (⟨true⟩, getCalls ++ (set_slow_ramp_time api pool n).2)
      else (result, getCalls)

/-- Lines 302-423: `main`.  After argument parsing (lines 303-318), line 320
binds `name`, line 321 builds `profile = fq_name(partition, name)`, and
line 322 binds the misspelled local `certificiate`.  Line 323 then reads
`certificate`, a local whose only assignment is line 324 inside the body
guarded by this very `if`; CPython raises UnboundLocalError at line 323 on
every invocation, outside the try/except of lines 338/420 and before any
remote call, so `main` never reaches the `state` dispatch (lines 342-418)
and never produces a `{'changed': ...}` result. -/
def mainRun (params : ModuleParams) (check_mode : Bool) (api : ApiState) :
    Except PyError MainResult × List ApiCall :=
  let name := params.name
  let profile := fq_name params.partition name
  let certificiate := params.certificate
  (Except.error (PyError.unboundLocal "certificate"), [])

/-! ### Call classifiers and concrete inputs used by the theorems -/

/-- Is the call a `ProfileClientSSL.delete_profile`? -/
def isDeleteProfileCall : ApiCall → Bool
  | ApiCall.deleteProfile _ => true
  | _ => false

/-- Is the call a `ProfileClientSSL.create_v2`? -/
def isCreateCall : ApiCall → Bool
  | ApiCall.createV2 _ _ _ => true
  | _ => false

/-- Is the call a `ProfileClientSSL.set_chain_file_v2`? -/
def isChainCall : ApiCall → Bool
  | ApiCall.setChainFileV2 _ _ => true
  | _ => false

/-- Is the call a `ProfileClientSSL.set_default_profile`? -/
def isDefaultProfileCall : ApiCall → Bool
  | ApiCall.setDefaultProfile _ _ => true
  | _ => false

/-- Is the call a `Pool.set_monitor_association`? -/
def isSetMonitorsCall : ApiCall → Bool
  | ApiCall.setMonitorAssociation _ _ _ _ => true
  | _ => false

/-- Does the trace contain Pool.set_monitor_association? -/
def hasSetMonitors (calls : List ApiCall) : Bool := calls.any isSetMonitorsCall

/-- A remote state with no profiles and blank pool attributes. -/
def baseApi : ApiState :=
  { profiles := [], poolLbMethod := "", poolMonitorRule := ⟨"", 0, []⟩,
    poolSlowRampTime := 0, poolServiceDownAction := "" }

/-- Baseline module parameters. -/
def baseParams : ModuleParams :=
  { server := "lb.example.com", user := "admin", password := "secret",
    validate_certs := true, state := "present", partition := "Common",
    name := "profile1", certificate := none, key := none, chain := none,
    parent_profile := none }

/-- Remote state in which `/Common/profile1` exists. -/
def api1 : ApiState := { baseApi with profiles := ["/Common/profile1"] }

/-- Parameters for deleting `profile1`. -/
def params1 : ModuleParams := { baseParams with state := "absent" }

/-- Remote state whose pool lb method reads `LB_METHOD_ROUND_ROBIN`. -/
def api6 : ApiState := { baseApi with poolLbMethod := "LB_METHOD_ROUND_ROBIN" }

/-- The desired spec of the creation scenario: name `profile1`, partition
`Common`, certificate `cert1`, key `key1`, chain null. -/
def params5 : ModuleParams :=
  { baseParams with certificate := some "cert1", key := some "key1" }

/-! ### Helper lemmas -/

theorem isUpper_char_iff (c : Char) : c.isUpper = true ↔ 65 ≤ c.toNat ∧ c.toNat ≤ 90 := by
  simp only [Char.isUpper, Bool.and_eq_true, decide_eq_true_eq, ge_iff_le]
  constructor
  · rintro ⟨h1, h2⟩
    exact ⟨h1, h2⟩
  · rintro ⟨h1, h2⟩
    exact ⟨h1, h2⟩

theorem isUpper_pyCharLower (c : Char) : (pyCharLower c).isUpper = false := by
  unfold pyCharLower
  split
  case isTrue h =>
    have hb : 65 ≤ c.toNat ∧ c.toNat ≤ 90 := (isUpper_char_iff c).mp h
    have hvalid : (c.toNat + 32).isValidChar := Or.inl (by omega)
    rw [Char.ofNat, dif_pos hvalid]
    by_contra hc
    rw [Bool.not_eq_false] at hc
    have hval : (Char.ofNatAux (c.toNat + 32) hvalid).toNat = c.toNat + 32 := by
      simp [Char.ofNatAux, Char.toNat, UInt32.toNat]
    have := (isUpper_char_iff _).mp hc
    omega
  case isFalse h =>
    exact Bool.not_eq_true _ |>.mp h

theorem isUpper_of_mem_pyLower {s : String} {c : Char} (hc : c ∈ (pyLower s).data) :
    c.isUpper = false := by
  have : c ∈ s.data.map pyCharLower := hc
  obtain ⟨d, _, rfl⟩ := List.mem_map.mp this
  exact isUpper_pyCharLower d

/-! ### Claim theorems -/

/-- C1: the spec says that for state=absent with the named profile existing
and check mode off, reconcile issues the profile delete and returns
changed=true, absorbing a remote "not found" fault.  The code cannot do
this: `main` raises UnboundLocalError at line 323 before reaching the
absent branch, and the absent branch itself (lines 342-359), run on a state
where `/Common/profile1` exists, raises NameError on the misspelled name
`parition` at line 349 — after only the existence listing and before any
delete call — so the delete is never issued and changed=true is never
returned. -/
theorem absent_delete_never_issued :
    mainRun params1 false api1 = (Except.error (PyError.unboundLocal "certificate"), [])
    ∧ absentStep api1 "profile1" "Common" false
        = (Except.error (PyError.nameError "parition"), [ApiCall.getProfileList])
    ∧ (absentStep api1 "profile1" "Common" false).2.any isDeleteProfileCall = false := by
  refine ⟨rfl, rfl, rfl⟩

/-- C2: the spec's idempotence property says the first `reconcile(D)` run
against a differing remote state reports changed=true and the second
changed=false.  The code violates this for every desired spec: `main`
raises UnboundLocalError for the local `certificate` at line 323 on every
invocation, so no run ever reports a changed value at all. -/
theorem mainRun_never_reports_changed (params : ModuleParams) (check_mode : Bool)
    (api : ApiState) :
    mainRun params check_mode api = (Except.error (PyError.unboundLocal "certificate"), []) :=
  rfl

/-- C3: the spec says a dry-run issues no mutating call and reports the
same changed value a real run would report.  The code declares
`supports_check_mode=True` but crashes in check mode exactly as in real
mode: line 323 raises UnboundLocalError before any remote call, so a
check-mode run issues no call at all and reports no changed value, instead
of the preview the spec promises. -/
theorem check_mode_crashes_like_real_run (params : ModuleParams) (api : ApiState) :
    (mainRun params true api).2 = []
    ∧ mainRun params true api = mainRun params false api
    ∧ ∀ r : MainResult, (mainRun params true api).1 ≠ Except.ok r :=
  ⟨rfl, rfl, fun r h => Except.noConfusion h⟩

/-- C4: `profile_exists(api, name, partition)` returns true iff the string
`"/" + partition + "/" + name` occurs in the remote profile listing, and
the only remote call it issues is that listing. -/
theorem profile_exists_iff_fq_in_listing (api : ApiState) (name partition : String) :
    ((profile_exists api name partition).1 = true
      ↔ ("/" ++ partition ++ "/" ++ name) ∈ (profile_list api).1)
    ∧ (profile_exists api name partition).2 = [ApiCall.getProfileList] := by
  constructor
  · simp [profile_exists, profile_list, fqFormat]
  · rfl

/-- C5: the spec's creation scenario (name profile1, partition Common,
certificate cert1, key key1, chain null, resource absent) promises one
create call with paths `/Common/cert1.crt` and `/Common/key1.key`, no
chain-set call, and changed=true; and in general a chain-set call iff
chain is non-null and a set_default_profile call iff parent_profile is
non-null.  `create_profile` (lines 200-219) would indeed issue exactly
those calls — the third and fourth conjuncts prove it — but `main` never
invokes it: it raises UnboundLocalError at line 323, and even its present
path (lines 361-418) dies on the undefined name `pool_exists`, so the run
reports no changed=true and performs no create call. -/
theorem create_profile_scenario :
    mainRun params5 false baseApi = (Except.error (PyError.unboundLocal "certificate"), [])
    ∧ presentStep = (Except.error (PyError.nameError "pool_exists"), [])
    ∧ create_profile "profile1" "Common" "cert1" "key1" none none
        = [ApiCall.setActiveFolder "/Common",
           ApiCall.createV2 "profile1" "/Common/cert1.crt" "/Common/key1.key"]
    ∧ ∀ (n p c k : String) (ch pp : Option String),
        (create_profile n p c k ch pp).countP isCreateCall = 1
        ∧ (create_profile n p c k ch pp).countP isChainCall = (if ch.isSome then 1 else 0)
        ∧ (create_profile n p c k ch pp).countP isDefaultProfileCall
            = (if pp.isSome then 1 else 0) := by
  refine ⟨rfl, rfl, by decide, ?_⟩
  intro n p c k ch pp
  cases ch <;> cases pp <;>
    simp [create_profile, isCreateCall, isChainCall, isDefaultProfileCall,
      List.countP_cons, List.countP_append, List.countP_nil]

/-- C6: `get_lb_method` normalizes the remote value with
`.strip().replace('LB_METHOD_', '').lower()`, so a remote value of
`LB_METHOD_ROUND_ROBIN` (even with surrounding whitespace) reads back as
`round_robin`, and the line-397 comparison against the desired value
`round_robin` finds them equal and triggers no set call. -/
theorem lb_method_enum_normalization :
    (get_lb_method api6 "pool1").1 = "round_robin"
    ∧ (get_lb_method { api6 with poolLbMethod := " LB_METHOD_ROUND_ROBIN " } "pool1").1
        = "round_robin"
    ∧ lbMethodStep (some "round_robin") api6 "pool1" false ⟨false⟩
        = (⟨false⟩, [ApiCall.getLbMethod "pool1"]) := by
  refine ⟨rfl, rfl, rfl⟩

/-- C7: line 403 compares the desired and actual monitor-template lists
through `set(...)`, so any two lists with the same elements — in
particular permutations or duplications of one another, as the second and
third conjuncts show — yield the same difference verdict, and hence (last
conjunct) the same decision on whether a `set_monitor_association` call is
triggered. -/
theorem monitor_templates_set_comparison
    (tt mt : String) (tq q : Int) (a a' b b' : List String)
    (ha : a.toFinset = a'.toFinset) (hb : b.toFinset = b'.toFinset) :
    monitorsDiffer tt mt tq q a b = monitorsDiffer tt mt tq q a' b'
    ∧ (∀ (l l' : List String), l.Perm l' → l.toFinset = l'.toFinset)
    ∧ (∀ (x : String) (l : List String), x ∈ l → (x :: l).toFinset = l.toFinset)
    ∧ ∀ (api : ApiState) (pool : String) (cm : Bool) (res : MainResult),
        hasSetMonitors
            (monitorStep b mt q { api with poolMonitorRule := ⟨tt, tq, a⟩ } pool cm res).2
          = hasSetMonitors
              (monitorStep b' mt q { api with poolMonitorRule := ⟨tt, tq, a'⟩ } pool cm res).2 := by
  have hdiff : ∀ (s : String), monitorsDiffer s mt tq q a b = monitorsDiffer s mt tq q a' b' := by
    intro s
    simp [monitorsDiffer, pySet, ha, hb]
  refine ⟨hdiff tt, fun l l' h => List.toFinset_eq_of_perm l l' h, ?_, ?_⟩
  · intro x l hx
    rw [List.toFinset_cons, Finset.insert_eq_self.mpr (List.mem_toFinset.mpr hx)]
  · intro api pool cm res
    by_cases hbe : b = []
    · have hbe' : b' = [] := by
        rw [hbe] at hb
        simpa using hb.symm
      rw [hbe, hbe']
      rfl
    · have hbe' : b' ≠ [] := by
        intro hh
        rw [hh] at hb
        exact hbe (by simpa using hb)
      simp only [monitorStep, get_monitors, hbe, hbe', ne_eq, not_false_eq_true, if_true,
        reduceIte]
      rw [hdiff]
      cases hd : monitorsDiffer (pyLower (pySplitLast tt "MONITOR_RULE_TYPE_")) mt tq q a' b'
      · simp [hasSetMonitors]
      · cases cm <;> simp [hasSetMonitors, set_monitors, isSetMonitorsCall]

/-- Witness for C7 at concrete lists: `["m1", "m2"]` against its permuted
and duplicated variant, and `["x"]` against `["x", "x"]`. -/
theorem monitor_templates_set_comparison_witness :
    ((["m1", "m2"] : List String).toFinset = (["m2", "m1", "m1"] : List String).toFinset)
    ∧ ((["x"] : List String).toFinset = (["x", "x"] : List String).toFinset)
    ∧ monitorsDiffer "t" "http" 1 2 ["m1", "m2"] ["x"]
        = monitorsDiffer "t" "http" 1 2 ["m2", "m1", "m1"] ["x", "x"] :=
  ⟨by decide, by decide,
    (monitor_templates_set_comparison "t" "http" 1 2 ["m1", "m2"] ["m2", "m1", "m1"]
      ["x"] ["x", "x"] (by decide) (by decide)).1⟩

/-- C8: `delete_node_address` returns True when the remote delete
succeeds, returns False (no exception) when the delete fails with a
message containing "is referenced by a member of pool", and re-raises any
other `OperationFailed` unchanged. -/
theorem delete_node_address_error_classification (address msg : String) :
    delete_node_address address RemoteOutcome.success
        = (Except.ok true, [ApiCall.deleteNodeAddress address])
    ∧ (pyContains msg "is referenced by a member of pool" = true →
        delete_node_address address (RemoteOutcome.operationFailed msg)
          = (Except.ok false, [ApiCall.deleteNodeAddress address]))
    ∧ (pyContains msg "is referenced by a member of pool" = false →
        delete_node_address address (RemoteOutcome.operationFailed msg)
          = (Except.error (PyError.operationFailed msg), [ApiCall.deleteNodeAddress address])) := by
  refine ⟨rfl, ?_, ?_⟩ <;> intro h <;> simp [delete_node_address, h]

/-- Witness for C8: a concrete in-use message is absorbed as False, and a
concrete unrelated message is re-raised. -/
theorem delete_node_address_error_classification_witness :
    (pyContains "node address 10.1.1.1 is referenced by a member of pool p1"
        "is referenced by a member of pool" = true)
    ∧ delete_node_address "10.1.1.1"
        (RemoteOutcome.operationFailed
          "node address 10.1.1.1 is referenced by a member of pool p1")
        = (Except.ok false, [ApiCall.deleteNodeAddress "10.1.1.1"])
    ∧ (pyContains "access denied" "is referenced by a member of pool" = false)
    ∧ delete_node_address "10.1.1.1" (RemoteOutcome.operationFailed "access denied")
        = (Except.error (PyError.operationFailed "access denied"),
           [ApiCall.deleteNodeAddress "10.1.1.1"]) :=
  ⟨by decide,
   (delete_node_address_error_classification "10.1.1.1"
      "node address 10.1.1.1 is referenced by a member of pool p1").2.1 (by decide),
   by decide,
   (delete_node_address_error_classification "10.1.1.1" "access denied").2.2 (by decide)⟩

/-- C9: `get_lb_method` always returns a `.lower()`-normalized string while
line 397 compares the desired value unmodified, so a desired lb_method
containing an ASCII uppercase letter can never equal the actual value —
not even right after `set_lb_method` stored it, since `set_lb_method`
sends `"LB_METHOD_" + lb_method.strip().upper()` (second conjunct) and
reading that back still lower-cases it (third conjunct). -/
theorem lb_method_uppercase_never_matches
    (desired : String) (api : ApiState) (pool : String)
    (h : ∃ c ∈ desired.data, c.isUpper = true) :
    desired ≠ (get_lb_method api pool).1
    ∧ (set_lb_method api pool desired).1.poolLbMethod
        = "LB_METHOD_" ++ pyUpper (pyStrip desired)
    ∧ desired ≠ (get_lb_method (set_lb_method api pool desired).1 pool).1 := by
  obtain ⟨c, hc, hup⟩ := h
  have key : ∀ (st : ApiState), desired ≠ (get_lb_method st pool).1 := by
    intro st heq
    have hc' : c ∈ (pyLower (pyReplaceRemove (pyStrip st.poolLbMethod) "LB_METHOD_")).data := by
      rw [heq] at hc
      exact hc
    have hlow := isUpper_of_mem_pyLower hc'
    rw [hup] at hlow
    exact Bool.noConfusion hlow
  exact ⟨key api, rfl, key _⟩

/-- Witness for C9 at the desired value `Round_Robin` against the baseline
remote state. -/
theorem lb_method_uppercase_never_matches_witness :
    (∃ c ∈ "Round_Robin".data, c.isUpper = true)
    ∧ "Round_Robin" ≠ (get_lb_method baseApi "pool1").1 :=
  ⟨by decide,
   (lb_method_uppercase_never_matches "Round_Robin" baseApi "pool1" (by decide)).1⟩

/-- C10: line 407 guards the slow-ramp check with Python truthiness
(`if slow_ramp_time and ...`), so a desired value of 0 — like an absent
value — short-circuits the whole step: no get call, no set call, and the
`changed` result is passed through untouched. -/
theorem slow_ramp_time_zero_never_checked (api : ApiState) (pool : String)
    (cm : Bool) (res : MainResult) :
    slowRampStep (some 0) api pool cm res = (res, [])
    ∧ slowRampStep none api pool cm res = (res, []) :=
  ⟨rfl, rfl⟩

/-- Witness for C2 at concrete parameters and remote state. -/
theorem mainRun_never_reports_changed_witness :
    mainRun baseParams true baseApi = (Except.error (PyError.unboundLocal "certificate"), []) :=
  mainRun_never_reports_changed baseParams true baseApi

/-- Witness for C3 at concrete parameters and remote state. -/
theorem check_mode_crashes_like_real_run_witness :
    (mainRun baseParams true baseApi).2 = []
    ∧ mainRun baseParams true baseApi = mainRun baseParams false baseApi
    ∧ (mainRun baseParams true baseApi).1 ≠ Except.ok ⟨true⟩ :=
  ⟨(check_mode_crashes_like_real_run baseParams baseApi).1,
   (check_mode_crashes_like_real_run baseParams baseApi).2.1,
   (check_mode_crashes_like_real_run baseParams baseApi).2.2 ⟨true⟩⟩

/-- Witness for C4 at a remote state listing `/Common/profile1`. -/
theorem profile_exists_iff_fq_in_listing_witness :
    ((profile_exists api1 "profile1" "Common").1 = true
      ↔ ("/" ++ "Common" ++ "/" ++ "profile1") ∈ (profile_list api1).1)
    ∧ (profile_exists api1 "profile1" "Common").2 = [ApiCall.getProfileList] :=
  profile_exists_iff_fq_in_listing api1 "profile1" "Common"

/-- Witness for C10 at a concrete state and result record. -/
theorem slow_ramp_time_zero_never_checked_witness :
    slowRampStep (some 0) baseApi "pool1" false ⟨false⟩ = (⟨false⟩, [])
    ∧ slowRampStep none baseApi "pool1" false ⟨false⟩ = (⟨false⟩, []) :=
  slow_ramp_time_zero_never_checked baseApi "pool1" false ⟨false⟩
